import Mathlib

/-!
Verification development for the column-detection-and-metric-derivation core of
the AI-Financial-Analysis-Platform repository.

The Python source (src/smart_analyzer.py, src/advanced_calculator.py) is shallowly
embedded here: Python floats are modelled as rationals (ℚ), Python dicts holding
metric results are modelled as association lists from string keys to values, and
the mutable SmartFinancialAnalyzer object is modelled by explicit state passing
(the detected-columns dict is an explicit argument and result).

Python's round(x, n) (round half to even at n decimal digits) is modelled exactly
over ℚ; the binary-floating-point representation error of the original is not
modelled, which only matters on ties that are not exactly representable.
-/

/-! ## String helpers (Python lower / strip / substring containment) -/

/-- ASCII lower-casing of one character, as Python str.lower does on ASCII input
(non-ASCII letters are left unchanged; the pattern dictionary of the source is
all-ASCII so this is the only case exercised). -/
def lcChar (c : Char) : Char :=
  if c.toNat ≥ 65 ∧ c.toNat ≤ 90 then Char.ofNat (c.toNat + 32) else c

/-- Whitespace test used by Python str.strip. -/
def isSpaceChar (c : Char) : Bool :=
  c == ' ' || c == '\t' || c == '\n' || c == '\r'

/-- Strip whitespace from both ends of a character list (Python str.strip). -/
def stripChars (l : List Char) : List Char :=
  ((l.dropWhile isSpaceChar).reverse.dropWhile isSpaceChar).reverse

/-- The normalisation `col.lower().strip()` applied to every column name in
SmartFinancialAnalyzer.__init__ (src/smart_analyzer.py line 21). -/
def pyKey (s : String) : String := ⟨stripChars (s.data.map lcChar)⟩

/-- Does the character list begin with the given pattern? -/
def leadsWith : List Char → List Char → Bool
  | _, [] => true
  | [], _ :: _ => false
  | h :: hs, p :: ps => h == p && leadsWith hs ps

/-- Substring occurrence test on character lists. -/
def hasSubChars (pat : List Char) : List Char → Bool
  | [] => leadsWith [] pat
  | h :: t => leadsWith (h :: t) pat || hasSubChars pat t

/-- Python's `pattern in col` substring containment on strings. -/
def strHasSub (hay pat : String) : Bool := hasSubChars pat.data hay.data

/-! ## Python round (half to even) over ℚ -/

/-- Round a rational to the nearest integer, ties to even (Python round). -/
def pyRoundInt (q : ℚ) : ℤ :=
  if q - ⌊q⌋ < 1/2 then ⌊q⌋
  else if 1/2 < q - ⌊q⌋ then ⌊q⌋ + 1
  else if 2 ∣ ⌊q⌋ then ⌊q⌋ else ⌊q⌋ + 1

/-- Python round(q, n): round half to even at n decimal digits, on the exact
rational.  The program rounds binary doubles, which can sit on either side of
a decimal tie that is not exactly representable (such as 0.09075 in the WACC
scenario, where the computed double lies just below the tie); theorems about
inputs that hit such a tie therefore assert only tie-insensitive bounds on
the rounded value, never the tie direction itself. -/
def pyRound (n : ℕ) (q : ℚ) : ℚ := (pyRoundInt (q * 10 ^ n) : ℚ) / 10 ^ n

/-! ## Metric Result values (Python dict entries) -/

/-- A value stored in a metric-result dict: a number, a string label, a boolean,
or a list of numbers (the present_values entry of the NPV result). -/
inductive PyVal where
  | num (q : ℚ)
  | str (s : String)
  | boolean (b : Bool)
  | numList (l : List ℚ)
  deriving DecidableEq

/-- A Metric Result: the Python dict returned by one metric function, modelled
as an association list in insertion order. -/
abbrev MetricResult := List (String × PyVal)

/-! ## Metric Library (src/advanced_calculator.py)

Each function is a direct translation of the corresponding static method of
AdvancedFinancialCalculator.  The `try/except` wrappers of the source cannot
fire for these bodies (all arithmetic is total after the explicit guards), so
no exception branch appears in the model.  The f-string `interpretation`
entries interpolate formatted numbers into prose; only the branch word chosen
by the conditional is kept in the model, since no numeric content of that
prose is ever read back by the program. -/

/-- calculate_profit_loss_ratio (src/advanced_calculator.py lines 18-39). -/
def calculate_profit_loss_ratio_fn (revenue cost : ℚ) : MetricResult :=
  let profit := revenue - cost
  let plr := if revenue > 0 then profit / revenue else 0
  [("profit", .num (pyRound 4 profit)),
   ("revenue", .num (pyRound 4 revenue)),
   ("cost", .num (pyRound 4 cost)),
   ("profit_loss_ratio", .num (pyRound 4 plr)),
   ("profit_percentage", .num (pyRound 2 (plr * 100))),
   ("is_profitable", .boolean (decide (profit > 0))),
   ("status", .str (if profit > 0 then "Profitable" else "Loss")),
   ("interpretation", .str (if profit > 0 then "Profit" else "Loss")),
   ("formula", .str "Profit/Loss Ratio = (Revenue - Cost) / Revenue")]

/-- The accumulation loop `for t, cf in enumerate(cashflows): npv += cf/((1+r)**t)`
of calculate_npv_fixed, with the running period index made explicit. -/
def npvLoop (r : ℚ) : ℕ → List ℚ → ℚ
  | _, [] => 0
  | t, cf :: rest => cf / (1 + r) ^ t + npvLoop r (t + 1) rest

/-- The per-period list `[cf/((1+r)**t) for t, cf in enumerate(cashflows)]`
of calculate_npv_fixed. -/
def pvListLoop (r : ℚ) : ℕ → List ℚ → List ℚ
  | _, [] => []
  | t, cf :: rest => cf / (1 + r) ^ t :: pvListLoop r (t + 1) rest

/-- calculate_npv_fixed (src/advanced_calculator.py lines 41-70). -/
def calculate_npv_fixed (cashflows : List ℚ) (discount_rate : ℚ) : MetricResult :=
  if cashflows.isEmpty then [("error", .str "No cash flows provided")]
  else
    let npv := npvLoop discount_rate 0 cashflows
    let present_values := pvListLoop discount_rate 0 cashflows
    [("npv", .num (pyRound 4 npv)),
     ("discount_rate", .num (pyRound 4 discount_rate)),
     ("periods", .num (cashflows.length : ℚ)),
     ("total_cashflow", .num (pyRound 4 cashflows.sum)),
     ("present_values", .numList (present_values.map (pyRound 4))),
     ("decision", .str (if npv > 0 then "Accept Project" else "Reject Project")),
     ("interpretation", .str (if npv > 0 then "adds" else "destroys")),
     ("formula", .str "NPV = Σ [CFt / (1 + r)^t]")]

/-- Stand-in for the scipy fsolve root-finding inside calculate_irr_fixed.  The
numerical solver has no shallow embedding; no theorem in this file reads the
solved rate, only the guard behaviour of calculate_irr_fixed is relied on. -/
def irrSolve (_cashflows : List ℚ) (_guess : ℚ) : ℚ := 0

/-- calculate_irr_fixed (src/advanced_calculator.py lines 72-106): only the
under-two-cash-flows guard is modelled exactly; the solved rate is abstracted
by irrSolve. -/
def calculate_irr_fixed (cashflows : List ℚ) (guess : ℚ) : MetricResult :=
  if cashflows.length < 2 then [("error", .str "At least 2 cash flows required")]
  else
    let irr := irrSolve cashflows guess
    [("irr", .num (pyRound 4 irr)),
     ("irr_percentage", .num (pyRound 2 (irr * 100))),
     ("periods", .num (cashflows.length : ℚ)),
     ("total_cashflow", .num (pyRound 4 cashflows.sum)),
     ("interpretation", .str (if irr > 1/10 then "good" else "poor")),
     ("recommendation", .str (if irr > 1/10 then "Invest" else "Reconsider")),
     ("formula", .str "IRR: Rate where NPV = 0")]

/-- calculate_roi (src/advanced_calculator.py lines 108-124). -/
def calculate_roi (total_revenue total_cost investment : ℚ) : MetricResult :=
  let net_profit := total_revenue - total_cost
  let roi := if investment > 0 then net_profit / investment else 0
  [("roi", .num (pyRound 4 roi)),
   ("roi_percentage", .num (pyRound 2 (roi * 100))),
   ("net_profit", .num (pyRound 4 net_profit)),
   ("investment", .num (pyRound 4 investment)),
   ("interpretation", .str "ROI on investment"),
   ("formula", .str "ROI = (Revenue - Cost) / Investment")]

/-- calculate_gross_margin (src/advanced_calculator.py lines 145-160). -/
def calculate_gross_margin (revenue cogs : ℚ) : MetricResult :=
  let gross_profit := revenue - cogs
  let gross_margin := if revenue > 0 then gross_profit / revenue else 0
  [("gross_profit", .num (pyRound 4 gross_profit)),
   ("gross_margin", .num (pyRound 4 gross_margin)),
   ("gross_margin_percentage", .num (pyRound 2 (gross_margin * 100))),
   ("interpretation", .str (if gross_margin > 3/10 then "healthy" else "low")),
   ("formula", .str "Gross Margin = (Revenue - COGS) / Revenue")]

/-- calculate_net_margin (src/advanced_calculator.py lines 162-177). -/
def calculate_net_margin (revenue total_costs : ℚ) : MetricResult :=
  let net_profit := revenue - total_costs
  let net_margin := if revenue > 0 then net_profit / revenue else 0
  [("net_profit", .num (pyRound 4 net_profit)),
   ("net_margin", .num (pyRound 4 net_margin)),
   ("net_margin_percentage", .num (pyRound 2 (net_margin * 100))),
   ("interpretation", .str "overall profitability"),
   ("formula", .str "Net Margin = (Revenue - Total Costs) / Revenue")]

/-- calculate_working_capital (src/advanced_calculator.py lines 179-196). -/
def calculate_working_capital (current_assets current_liabilities : ℚ) : MetricResult :=
  let working_capital := current_assets - current_liabilities
  let current_ratio := if current_liabilities > 0 then current_assets / current_liabilities else 0
  [("working_capital", .num (pyRound 4 working_capital)),
   ("current_ratio", .num (pyRound 4 current_ratio)),
   ("current_assets", .num (pyRound 4 current_assets)),
   ("current_liabilities", .num (pyRound 4 current_liabilities)),
   ("liquidity_status", .str (if current_ratio > 3/2 then "Healthy"
      else if current_ratio > 1 then "Adequate" else "Concerning")),
   ("interpretation", .str "working capital with current ratio"),
   ("formula", .str "Working Capital = Current Assets - Current Liabilities")]

/-- calculate_debt_to_equity (src/advanced_calculator.py lines 198-213). -/
def calculate_debt_to_equity (total_debt total_equity : ℚ) : MetricResult :=
  let de := if total_equity > 0 then total_debt / total_equity else 0
  [("debt_to_equity", .num (pyRound 4 de)),
   ("total_debt", .num (pyRound 4 total_debt)),
   ("total_equity", .num (pyRound 4 total_equity)),
   ("leverage", .str (if de > 2 then "High" else if de > 1 then "Moderate" else "Conservative")),
   ("interpretation", .str (if de > 2 then "high" else if de > 1 then "moderate" else "low")),
   ("formula", .str "D/E Ratio = Total Debt / Total Equity")]

/-- calculate_inventory_turnover (src/advanced_calculator.py lines 215-232).
Note: a non-positive average inventory takes the forced-zero branch of both
ternaries, so the returned record is the full success shape with zeroes. -/
def calculate_inventory_turnover (cogs average_inventory : ℚ) : MetricResult :=
  let turnover := if average_inventory > 0 then cogs / average_inventory else 0
  let days_inventory := if turnover > 0 then 365 / turnover else 0
  [("inventory_turnover", .num (pyRound 4 turnover)),
   ("days_inventory_outstanding", .num (pyRound 2 days_inventory)),
   ("cogs", .num (pyRound 4 cogs)),
   ("average_inventory", .num (pyRound 4 average_inventory)),
   ("efficiency", .str (if turnover > 10 then "Excellent"
      else if turnover > 5 then "Good" else "Needs Improvement")),
   ("interpretation", .str "inventory turns per year"),
   ("formula", .str "Inventory Turnover = COGS / Average Inventory")]

/-- calculate_cash_flow_analysis (src/advanced_calculator.py lines 306-325). -/
def calculate_cash_flow_analysis (revenue expenses initial_cash : ℚ) : MetricResult :=
  let net_cashflow := revenue - expenses
  let ending_cash := initial_cash + net_cashflow
  let cashflow_margin := if revenue > 0 then net_cashflow / revenue else 0
  [("net_cashflow", .num (pyRound 4 net_cashflow)),
   ("initial_cash", .num (pyRound 4 initial_cash)),
   ("ending_cash", .num (pyRound 4 ending_cash)),
   ("cashflow_margin", .num (pyRound 4 cashflow_margin)),
   ("cashflow_margin_percentage", .num (pyRound 2 (cashflow_margin * 100))),
   ("status", .str (if net_cashflow > 0 then "Positive" else "Negative")),
   ("interpretation", .str (if net_cashflow > 0 then "Positive" else "Negative")),
   ("formula", .str "Net Cash Flow = Revenue - Expenses")]

/-- calculate_wacc (src/advanced_calculator.py lines 425-477). -/
def calculate_wacc (equity debt cost_of_equity cost_of_debt tax_rate : ℚ) : MetricResult :=
  let total_capital := equity + debt
  if total_capital = 0 then [("error", .str "Total capital (Equity + Debt) is zero")]
  else
    let equity_weight := equity / total_capital
    let debt_weight := debt / total_capital
    let wacc := equity_weight * cost_of_equity + debt_weight * cost_of_debt * (1 - tax_rate)
    [("wacc", .num (pyRound 4 wacc)),
     ("wacc_percentage", .num (pyRound 2 (wacc * 100))),
     ("equity", .num (pyRound 2 equity)),
     ("debt", .num (pyRound 2 debt)),
     ("total_capital", .num (pyRound 2 total_capital)),
     ("equity_weight", .num (pyRound 4 equity_weight)),
     ("debt_weight", .num (pyRound 4 debt_weight)),
     ("cost_of_equity", .num (pyRound 4 cost_of_equity)),
     ("cost_of_debt", .num (pyRound 4 cost_of_debt)),
     ("tax_rate", .num (pyRound 4 tax_rate)),
     ("after_tax_cost_of_debt", .num (pyRound 4 (cost_of_debt * (1 - tax_rate)))),
     ("interpretation", .str (if wacc < 8/100 then "Low cost of capital - favorable for investments"
        else if wacc < 12/100 then "Moderate cost of capital - typical range"
        else "High cost of capital - projects need higher returns")),
     ("formula", .str "WACC = (E/V × Re) + (D/V × Rd × (1 - T))"),
     ("recommendation", .str "Use WACC as discount rate for NPV calculations")]

/-- calculate_ebitda (src/advanced_calculator.py lines 479-513). -/
def calculate_ebitda (revenue operating_expenses depreciation amortization : ℚ) : MetricResult :=
  let ebitda := revenue - operating_expenses + depreciation + amortization
  let ebitda_margin := if revenue > 0 then ebitda / revenue * 100 else 0
  [("ebitda", .num (pyRound 2 ebitda)),
   ("revenue", .num (pyRound 2 revenue)),
   ("operating_expenses", .num (pyRound 2 operating_expenses)),
   ("depreciation", .num (pyRound 2 depreciation)),
   ("amortization", .num (pyRound 2 amortization)),
   ("ebitda_margin", .num (pyRound 2 ebitda_margin)),
   ("interpretation", .str (if ebitda_margin > 20 then "Strong operational profitability"
      else if ebitda_margin > 10 then "Healthy EBITDA margin"
      else if ebitda_margin > 0 then "Positive but low EBITDA margin"
      else "Negative EBITDA - operational losses")),
   ("formula", .str "EBITDA = Revenue - Operating Expenses + D&A"),
   ("status", .str (if ebitda > 0 then "Positive" else "Negative"))]

/-! ## Column Classifier (src/smart_analyzer.py)

The SmartFinancialAnalyzer stores its detected-columns dict on the instance;
here that dict is an explicit RoleMap value threaded through the functions.
Python dict insertion keeps at most one value per key, which the Option-typed
fields reproduce. -/

/-- The detected-columns dict: for each semantic role, the original name of the
column chosen for it, if any. -/
structure RoleMap where
  revenue : Option String
  cost : Option String
  profit : Option String
  date : Option String
  quantity : Option String
  price : Option String
  customer : Option String
  product : Option String
  investment : Option String
  cashflow : Option String
  assets : Option String
  liabilities : Option String
  equity : Option String
  deriving DecidableEq

/-- The empty detected-columns dict of a fresh analyzer. -/
def emptyRoleMap : RoleMap :=
  { revenue := none, cost := none, profit := none, date := none, quantity := none
    price := none, customer := none, product := none, investment := none
    cashflow := none, assets := none, liabilities := none, equity := none }

/-- The column_patterns dictionary of _detect_columns
(src/smart_analyzer.py lines 49-63), one list per role, in source order. -/
def patterns_revenue : List String :=
  ["revenue", "sales", "income", "total_amount", "total amount", "sales_amount"]

def patterns_cost : List String :=
  ["cost", "expense", "cogs", "cost_of_goods", "purchase", "expenditure"]

def patterns_profit : List String := ["profit", "net_income", "earnings", "margin"]

def patterns_date : List String := ["date", "time", "period", "month", "year", "timestamp"]

def patterns_quantity : List String := ["quantity", "qty", "units", "volume", "count"]

def patterns_price : List String := ["price", "unit_price", "rate", "cost_per_unit"]

def patterns_customer : List String := ["customer", "client", "buyer", "account"]

def patterns_product : List String := ["product", "item", "sku", "category", "service"]

def patterns_investment : List String := ["investment", "capital", "initial", "principal"]

def patterns_cashflow : List String := ["cash_flow", "cashflow", "cash"]

def patterns_assets : List String := ["assets", "inventory", "stock"]

def patterns_liabilities : List String := ["liabilities", "debt", "payable", "loan"]

def patterns_equity : List String := ["equity", "capital", "owner"]

/-- The original column name recovered by
`self.df.columns[self.columns.index(col)]` (src/smart_analyzer.py line 70):
the first original name whose normalised form equals the given normalised
name. -/
def origAt (names : List String) (c : String) : String :=
  (names.find? (fun o => pyKey o == c)).getD ""

/-- The per-role scan of _detect_columns (src/smart_analyzer.py lines 65-74):
walk the normalised column names in order; a column matching any pattern is
assigned (overwriting) and ends the scan; otherwise the scan also ends as soon
as the role already has an entry (only possible if it had one on entry, since
a fresh assignment ends the scan immediately). -/
def detectRoleLoop (pats : List String) (origOf : String → String) :
    List String → Option String → Option String
  | [], acc => acc
  | c :: rest, acc =>
    let acc2 := if pats.any (fun p => strHasSub c p) then some (origOf c) else acc
    match acc2 with
    | some v => some v
    | none => detectRoleLoop pats origOf rest none

/-- _detect_columns (src/smart_analyzer.py lines 47-74).  The Python loop
visits the thirteen roles in dict order over a shared mutable dict, but each
iteration reads and writes only its own role's entry, so the thirteen fields
are computed independently. -/
def detect_columns (names : List String) (init : RoleMap) : RoleMap :=
  let lows := names.map pyKey
  let o := origAt names
  { revenue := detectRoleLoop patterns_revenue o lows init.revenue
    cost := detectRoleLoop patterns_cost o lows init.cost
    profit := detectRoleLoop patterns_profit o lows init.profit
    date := detectRoleLoop patterns_date o lows init.date
    quantity := detectRoleLoop patterns_quantity o lows init.quantity
    price := detectRoleLoop patterns_price o lows init.price
    customer := detectRoleLoop patterns_customer o lows init.customer
    product := detectRoleLoop patterns_product o lows init.product
    investment := detectRoleLoop patterns_investment o lows init.investment
    cashflow := detectRoleLoop patterns_cashflow o lows init.cashflow
    assets := detectRoleLoop patterns_assets o lows init.assets
    liabilities := detectRoleLoop patterns_liabilities o lows init.liabilities
    equity := detectRoleLoop patterns_equity o lows init.equity }

/-- _detect_business_type (src/smart_analyzer.py lines 76-91).  Each Python
test `{...} & col_set` is truthy exactly when at least one of the listed roles
is present in the detected-columns dict. -/
def detect_business_type (rm : RoleMap) : String :=
  if rm.product.isSome || rm.quantity.isSome || rm.assets.isSome then "retail_inventory"
  else if rm.customer.isSome || rm.revenue.isSome || rm.date.isSome then "service_based"
  else if rm.investment.isSome || rm.cashflow.isSome then "investment_portfolio"
  else if rm.assets.isSome || rm.liabilities.isSome || rm.equity.isSome then "balance_sheet"
  else if rm.revenue.isSome || rm.cost.isSome || rm.profit.isSome then "income_statement"
  else "general_financial"

/-! ## Financial Data Extractor (src/smart_analyzer.py lines 175-293) -/

/-- One table cell: already-numeric data, or text that pd.to_numeric with
errors=coerce turns into NaN (and dropna then removes). -/
inductive Cell where
  | num (q : ℚ)
  | txt (s : String)
  deriving DecidableEq

/-- A table: ordered columns, each an original name with its cells. -/
abbrev Table := List (String × List Cell)

/-- Column access df[name]: the first column with the given name. -/
def getCol (t : Table) (name : String) : List Cell :=
  ((t.find? (fun p => p.1 == name)).map Prod.snd).getD []

/-- pd.to_numeric(column, errors=coerce).dropna(): keep the numeric cells in
order and silently drop the rest.  This never raises, so the except-branches
of extract_financial_data are unreachable and carry no model. -/
def coerceSeries (cells : List Cell) : List ℚ :=
  cells.filterMap (fun c => match c with | .num q => some q | .txt _ => none)

/-- A numeric-role aggregate {total, mean, series}.  pandas yields NaN for the
mean of an empty series; NaN has no rational counterpart and is modelled as 0
(no downstream consumer or claim reads the mean of an empty series). -/
structure Aggregate where
  total : ℚ
  mean : ℚ
  series : List ℚ
  deriving DecidableEq

/-- The derived profit entry {total, margin} of extract_financial_data. -/
structure DerivedProfit where
  total : ℚ
  margin : ℚ
  deriving DecidableEq

/-- The quantity entry {total, mean} of extract_financial_data. -/
structure QuantityAgg where
  total : ℚ
  mean : ℚ
  deriving DecidableEq

/-- The financial_data dict built by extract_financial_data: one optional
entry per key the source may insert.  The dates entry holds a pandas datetime
series never consumed by the calculator; only its presence is modelled. -/
structure FinancialData where
  revenue : Option Aggregate
  cost : Option Aggregate
  profit : Option DerivedProfit
  investment : Option ℚ
  cashflows : Option (List ℚ)
  hasDates : Bool
  assets : Option ℚ
  liabilities : Option ℚ
  equity : Option ℚ
  quantity : Option QuantityAgg
  deriving DecidableEq

/-- Build the {total, mean, series} aggregate from a raw column. -/
def mkAggregate (cells : List Cell) : Aggregate :=
  let s := coerceSeries cells
  { total := s.sum
    mean := if s.length = 0 then 0 else s.sum / (s.length : ℚ)
    series := s }

/-- extract_financial_data (src/smart_analyzer.py lines 175-293), as a pure
function of the table and the detected-columns map.  The cashflows entry uses
the explicit cash-flow column when that role is detected, and otherwise the
pointwise revenue-minus-cost synthesis over the common prefix when both those
roles are detected; the error-tag guards of the source are vacuous here since
the modelled coercion never fails. -/
def extract_financial_data (t : Table) (rm : RoleMap) : FinancialData :=
  let rev := rm.revenue.map (fun c => mkAggregate (getCol t c))
  let cost := rm.cost.map (fun c => mkAggregate (getCol t c))
  { revenue := rev
    cost := cost
    profit :=
      match rev, cost with
      | some r, some c =>
        some { total := r.total - c.total
               margin := if r.total > 0 then (r.total - c.total) / r.total * 100 else 0 }
      | _, _ => none
    investment := rm.investment.map (fun c => (coerceSeries (getCol t c)).sum)
    cashflows :=
      match rm.cashflow with
      | some c => some (coerceSeries (getCol t c))
      | none =>
        match rev, cost with
        | some r, some c => some (List.zipWith (fun a b => a - b) r.series c.series)
        | _, _ => none
    hasDates := rm.date.isSome
    assets := rm.assets.map (fun c => (coerceSeries (getCol t c)).sum)
    liabilities := rm.liabilities.map (fun c => (coerceSeries (getCol t c)).sum)
    equity := rm.equity.map (fun c => (coerceSeries (getCol t c)).sum)
    quantity := rm.quantity.map (fun c =>
      let s := coerceSeries (getCol t c)
      { total := s.sum, mean := if s.length = 0 then 0 else s.sum / (s.length : ℚ) }) }

/-! ## Metric Selector / Dispatcher (calculate_all_metrics,
src/advanced_calculator.py lines 327-423)

The Python function inserts results into a dict in a fixed key order; the
model concatenates one association-list segment per insertion site, in the
same order.  All keys are pairwise distinct, so lookup agrees with the dict. -/

def profitLossSeg (fd : FinancialData) : List (String × MetricResult) :=
  match fd.revenue, fd.cost with
  | some r, some c => [("profit_loss", calculate_profit_loss_ratio_fn r.total c.total)]
  | _, _ => []

def roiSeg (fd : FinancialData) : List (String × MetricResult) :=
  match fd.revenue, fd.cost, fd.investment with
  | some r, some c, some inv => [("roi", calculate_roi r.total c.total inv)]
  | _, _, _ => []

/-- NPV at the fixed default 10 percent discount rate, and IRR with its default
10 percent seed. -/
def npvIrrSeg (fd : FinancialData) : List (String × MetricResult) :=
  match fd.cashflows with
  | some cfs => [("npv", calculate_npv_fixed cfs (1/10)), ("irr", calculate_irr_fixed cfs (1/10))]
  | none => []

def marginSeg (fd : FinancialData) : List (String × MetricResult) :=
  match fd.revenue, fd.cost with
  | some r, some c =>
    [("gross_margin", calculate_gross_margin r.total c.total),
     ("net_margin", calculate_net_margin r.total c.total)]
  | _, _ => []

def workingCapitalSeg (fd : FinancialData) : List (String × MetricResult) :=
  match fd.assets, fd.liabilities with
  | some a, some l => [("working_capital", calculate_working_capital a l)]
  | _, _ => []

def debtToEquitySeg (fd : FinancialData) : List (String × MetricResult) :=
  match fd.liabilities, fd.equity with
  | some l, some e => [("debt_to_equity", calculate_debt_to_equity l e)]
  | _, _ => []

def inventoryTurnoverSeg (fd : FinancialData) : List (String × MetricResult) :=
  match fd.cost, fd.assets with
  | some c, some a => [("inventory_turnover", calculate_inventory_turnover c.total a)]
  | _, _ => []

def cashFlowAnalysisSeg (fd : FinancialData) : List (String × MetricResult) :=
  match fd.revenue, fd.cost with
  | some r, some c => [("cashflow_analysis", calculate_cash_flow_analysis r.total c.total 0)]
  | _, _ => []

/-- The WACC insertion site: when both the equity and liabilities aggregates
exist, a wacc entry is always inserted - the real result under the fixed
default assumptions when both values are positive, an explicit error record
otherwise.  When either aggregate is missing no entry is inserted at all. -/
def waccSeg (fd : FinancialData) : List (String × MetricResult) :=
  match fd.equity, fd.liabilities with
  | some e, some l =>
    if e > 0 ∧ l > 0 then
      [("wacc", calculate_wacc e l (12/100) (6/100) (30/100))]
    else
      [("wacc", [("error",
        .str "Need positive Equity and Liabilities/Debt values for WACC calculation")])]
  | _, _ => []

def ebitdaSeg (fd : FinancialData) : List (String × MetricResult) :=
  match fd.revenue, fd.cost with
  | some r, some c => [("ebitda", calculate_ebitda r.total c.total 0 0)]
  | _, _ => []

/-- calculate_all_metrics (src/advanced_calculator.py lines 327-423): the full
Metrics Bundle, segments concatenated in the source's insertion order. -/
def calculate_all_metrics (fd : FinancialData) : List (String × MetricResult) :=
  profitLossSeg fd ++ (roiSeg fd ++ (npvIrrSeg fd ++ (marginSeg fd ++
  (workingCapitalSeg fd ++ (debtToEquitySeg fd ++ (inventoryTurnoverSeg fd ++
  (cashFlowAnalysisSeg fd ++ (waccSeg fd ++ ebitdaSeg fd))))))))

/-- The mathematical summation named by the NPV contract:
sum over t in 0..n-1 of cf[t] / (1+r)^t.  Stated with Finset.range,
independently of the accumulation loop of the implementation. -/
def npvSummation (cf : List ℚ) (r : ℚ) : ℚ :=
  ∑ t ∈ Finset.range cf.length, cf.getD t 0 / (1 + r) ^ t

/-! ## Concrete fixtures used by witnesses and scenario theorems -/

/-- The scenario table with columns Revenue=[500000] and Cost=[350000]. -/
def tblRevCost : Table := [("Revenue", [.num 500000]), ("Cost", [.num 350000])]

/-- A table with unequal-length revenue and cost columns. -/
def tblSalesExpense : Table :=
  [("Sales", [.num 10, .num 20, .num 30]), ("Expense", [.num 5, .num 50])]

/-- A role map detecting only revenue and cost columns. -/
def rmSalesExpense : RoleMap :=
  { emptyRoleMap with revenue := some "Sales", cost := some "Expense" }

/-- A table whose cash-flow column holds no numeric cell. -/
def tblTextCash : Table := [("Cash", [.txt "pending", .txt "tbd"])]

/-- A role map detecting only a cash-flow column. -/
def rmTextCash : RoleMap := { emptyRoleMap with cashflow := some "Cash" }

/-- A financial_data dict with no entries at all. -/
def fdEmpty : FinancialData :=
  { revenue := none, cost := none, profit := none, investment := none
    cashflows := none, hasDates := false, assets := none, liabilities := none
    equity := none, quantity := none }

/-- A financial_data dict with positive equity and liabilities aggregates only. -/
def fdPos : FinancialData := { fdEmpty with equity := some 500000, liabilities := some 300000 }

/-- A financial_data dict with negative equity and liabilities aggregates only. -/
def fdNeg : FinancialData := { fdEmpty with equity := some (-500000), liabilities := some (-300000) }

/-! ## Helper lemmas on association-list lookup -/

theorem lookup_cons_self {β : Type} (k : String) (v : β) (t : List (String × β)) :
    List.lookup k ((k, v) :: t) = some v := by
  simp [List.lookup]

theorem lookup_cons_ne {β : Type} {k a : String} (h : k ≠ a) (v : β) (t : List (String × β)) :
    List.lookup k ((a, v) :: t) = List.lookup k t := by
  simp [List.lookup, beq_eq_false_iff_ne.mpr h]

theorem lookup_append_ne {β : Type} {k : String} {l1 l2 : List (String × β)}
    (h : ∀ p ∈ l1, p.1 ≠ k) : List.lookup k (l1 ++ l2) = List.lookup k l2 := by
  induction l1 with
  | nil => rfl
  | cons a t ih =>
    obtain ⟨a1, a2⟩ := a
    rw [List.cons_append, lookup_cons_ne (Ne.symm (h (a1, a2) (List.mem_cons_self _ _)))]
    exact ih fun p hp => h p (List.mem_cons_of_mem _ hp)

/-! ## Helper lemmas on pyRound -/

theorem pyRound_zero (n : ℕ) : pyRound n (0 : ℚ) = 0 := by
  unfold pyRound pyRoundInt
  norm_num

/-! ## Key inventories of the dispatcher segments -/

theorem profitLossSeg_keys (fd : FinancialData) :
    ∀ p ∈ profitLossSeg fd, p.1 = "profit_loss" := by
  cases hr : fd.revenue <;> cases hc : fd.cost <;> simp [profitLossSeg, hr, hc]

theorem roiSeg_keys (fd : FinancialData) : ∀ p ∈ roiSeg fd, p.1 = "roi" := by
  cases hr : fd.revenue <;> cases hc : fd.cost <;> cases hi : fd.investment <;>
    simp [roiSeg, hr, hc, hi]

theorem npvIrrSeg_keys (fd : FinancialData) :
    ∀ p ∈ npvIrrSeg fd, p.1 = "npv" ∨ p.1 = "irr" := by
  cases hf : fd.cashflows <;> simp [npvIrrSeg, hf]

theorem marginSeg_keys (fd : FinancialData) :
    ∀ p ∈ marginSeg fd, p.1 = "gross_margin" ∨ p.1 = "net_margin" := by
  cases hr : fd.revenue <;> cases hc : fd.cost <;> simp [marginSeg, hr, hc]

theorem workingCapitalSeg_keys (fd : FinancialData) :
    ∀ p ∈ workingCapitalSeg fd, p.1 = "working_capital" := by
  cases ha : fd.assets <;> cases hl : fd.liabilities <;> simp [workingCapitalSeg, ha, hl]

theorem debtToEquitySeg_keys (fd : FinancialData) :
    ∀ p ∈ debtToEquitySeg fd, p.1 = "debt_to_equity" := by
  cases hl : fd.liabilities <;> cases he : fd.equity <;> simp [debtToEquitySeg, hl, he]

theorem inventoryTurnoverSeg_keys (fd : FinancialData) :
    ∀ p ∈ inventoryTurnoverSeg fd, p.1 = "inventory_turnover" := by
  cases hc : fd.cost <;> cases ha : fd.assets <;> simp [inventoryTurnoverSeg, hc, ha]

theorem cashFlowAnalysisSeg_keys (fd : FinancialData) :
    ∀ p ∈ cashFlowAnalysisSeg fd, p.1 = "cashflow_analysis" := by
  cases hr : fd.revenue <;> cases hc : fd.cost <;> simp [cashFlowAnalysisSeg, hr, hc]

theorem waccSeg_keys (fd : FinancialData) : ∀ p ∈ waccSeg fd, p.1 = "wacc" := by
  cases he : fd.equity <;> cases hl : fd.liabilities <;> simp [waccSeg, he, hl]
  split <;> simp

/-- Lookup of the wacc entry passes all earlier dispatcher segments untouched. -/
theorem lookup_wacc_bundle (fd : FinancialData) :
    List.lookup "wacc" (calculate_all_metrics fd) =
      List.lookup "wacc" (waccSeg fd ++ ebitdaSeg fd) := by
  unfold calculate_all_metrics
  rw [lookup_append_ne (fun p hp => by simp [profitLossSeg_keys fd p hp]),
      lookup_append_ne (fun p hp => by simp [roiSeg_keys fd p hp]),
      lookup_append_ne (fun p hp => by rcases npvIrrSeg_keys fd p hp with h | h <;> simp [h]),
      lookup_append_ne (fun p hp => by rcases marginSeg_keys fd p hp with h | h <;> simp [h]),
      lookup_append_ne (fun p hp => by simp [workingCapitalSeg_keys fd p hp]),
      lookup_append_ne (fun p hp => by simp [debtToEquitySeg_keys fd p hp]),
      lookup_append_ne (fun p hp => by simp [inventoryTurnoverSeg_keys fd p hp]),
      lookup_append_ne (fun p hp => by simp [cashFlowAnalysisSeg_keys fd p hp])]

/-- Lookup of the npv entry passes the profit-loss and roi segments untouched. -/
theorem lookup_npv_bundle (fd : FinancialData) :
    List.lookup "npv" (calculate_all_metrics fd) =
      List.lookup "npv" (npvIrrSeg fd ++ (marginSeg fd ++ (workingCapitalSeg fd ++
        (debtToEquitySeg fd ++ (inventoryTurnoverSeg fd ++ (cashFlowAnalysisSeg fd ++
          (waccSeg fd ++ ebitdaSeg fd))))))) := by
  unfold calculate_all_metrics
  rw [lookup_append_ne (fun p hp => by simp [profitLossSeg_keys fd p hp]),
      lookup_append_ne (fun p hp => by simp [roiSeg_keys fd p hp])]

/-! ## Helper lemmas on the NPV loops -/

/-- The per-period present values sum exactly to the accumulated npv, before
any rounding: both loops add the same terms. -/
theorem pvListLoop_sum (r : ℚ) (cf : List ℚ) : ∀ k, (pvListLoop r k cf).sum = npvLoop r k cf := by
  induction cf with
  | nil => intro k; simp [pvListLoop, npvLoop]
  | cons c rest ih => intro k; simp [pvListLoop, npvLoop, ih]

/-- The accumulation loop computes the literal summation, with the starting
period index shifting the exponent. -/
theorem npvLoop_eq_sum (r : ℚ) (cf : List ℚ) :
    ∀ k, npvLoop r k cf = ∑ t ∈ Finset.range cf.length, cf.getD t 0 / (1 + r) ^ (k + t) := by
  induction cf with
  | nil => intro k; simp [npvLoop]
  | cons c rest ih =>
    intro k
    rw [npvLoop, ih (k + 1), List.length_cons, Finset.sum_range_succ']
    have h1 : ∀ t : ℕ, ((c :: rest).getD (t + 1) 0 : ℚ) = rest.getD t 0 := fun t => rfl
    have h2 : ((c :: rest).getD 0 0 : ℚ) = c := rfl
    simp only [h1, h2, Nat.add_zero]
    rw [add_comm]
    congr 1
    refine Finset.sum_congr rfl fun t _ => ?_
    have h3 : k + (t + 1) = k + 1 + t := by omega
    rw [h3]

/-- Started at period zero, the loop is the summation of the NPV contract. -/
theorem npvLoop_zero_eq_npvSummation (r : ℚ) (cf : List ℚ) :
    npvLoop r 0 cf = npvSummation cf r := by
  rw [npvLoop_eq_sum r cf 0]
  unfold npvSummation
  exact Finset.sum_congr rfl fun t _ => by rw [Nat.zero_add]

/-! ## Helper lemma on pointwise list subtraction -/

theorem zipWith_sub_getD :
    ∀ (a b : List ℚ) (i : ℕ), i < a.length → i < b.length →
      (List.zipWith (fun x y => x - y) a b).getD i 0 = a.getD i 0 - b.getD i 0 := by
  intro a
  induction a with
  | nil => intro b i h _; simp at h
  | cons x xs ih =>
    intro b i h1 h2
    cases b with
    | nil => simp at h2
    | cons y ys =>
      cases i with
      | zero => simp [List.zipWith]
      | succ j =>
        simpa [List.zipWith] using
          ih ys j (by simpa using h1) (by simpa using h2)

/-! ## Helper lemma: the per-role detection scan is idempotent -/

/-- Feeding the scan's own result back in as the initial entry returns the
same result: if the first column matches, both runs assign it; otherwise the
populated entry ends the second scan immediately with the first run's value. -/
theorem detectRoleLoop_idem (pats : List String) (o : String → String) (cols : List String) :
    detectRoleLoop pats o cols (detectRoleLoop pats o cols none) =
      detectRoleLoop pats o cols none := by
  cases cols with
  | nil => rfl
  | cons c rest =>
    by_cases h : (pats.any fun p => strHasSub c p) = true
    · simp [detectRoleLoop, h]
    · have h' : (pats.any fun p => strHasSub c p) = false := by
        simpa using h
      cases hz : detectRoleLoop pats o rest none with
      | none => simp [detectRoleLoop, h', hz]
      | some v => simp [detectRoleLoop, h', hz]

/-! ## Field-access lemmas for individual metric records -/

theorem plr_lookup_profit (revenue cost : ℚ) :
    List.lookup "profit" (calculate_profit_loss_ratio_fn revenue cost) =
      some (.num (pyRound 4 (revenue - cost))) := by
  simp only [calculate_profit_loss_ratio_fn]
  rw [lookup_cons_self]

theorem plr_lookup_ratio (revenue cost : ℚ) :
    List.lookup "profit_loss_ratio" (calculate_profit_loss_ratio_fn revenue cost) =
      some (.num (pyRound 4 (if revenue > 0 then (revenue - cost) / revenue else 0))) := by
  simp only [calculate_profit_loss_ratio_fn]
  rw [lookup_cons_ne (by decide), lookup_cons_ne (by decide), lookup_cons_ne (by decide),
      lookup_cons_self]

theorem plr_lookup_is_profitable (revenue cost : ℚ) :
    List.lookup "is_profitable" (calculate_profit_loss_ratio_fn revenue cost) =
      some (.boolean (decide (revenue - cost > 0))) := by
  simp only [calculate_profit_loss_ratio_fn]
  rw [lookup_cons_ne (by decide), lookup_cons_ne (by decide), lookup_cons_ne (by decide),
      lookup_cons_ne (by decide), lookup_cons_ne (by decide), lookup_cons_self]

theorem plr_lookup_status (revenue cost : ℚ) :
    List.lookup "status" (calculate_profit_loss_ratio_fn revenue cost) =
      some (.str (if revenue - cost > 0 then "Profitable" else "Loss")) := by
  simp only [calculate_profit_loss_ratio_fn]
  rw [lookup_cons_ne (by decide), lookup_cons_ne (by decide), lookup_cons_ne (by decide),
      lookup_cons_ne (by decide), lookup_cons_ne (by decide), lookup_cons_ne (by decide),
      lookup_cons_self]

theorem invturn_lookup_error (cogs avg : ℚ) :
    List.lookup "error" (calculate_inventory_turnover cogs avg) = none := by
  simp only [calculate_inventory_turnover]
  rw [lookup_cons_ne (by decide), lookup_cons_ne (by decide), lookup_cons_ne (by decide),
      lookup_cons_ne (by decide), lookup_cons_ne (by decide), lookup_cons_ne (by decide),
      lookup_cons_ne (by decide)]
  rfl

theorem invturn_lookup_turnover (cogs avg : ℚ) :
    List.lookup "inventory_turnover" (calculate_inventory_turnover cogs avg) =
      some (.num (pyRound 4 (if avg > 0 then cogs / avg else 0))) := by
  simp only [calculate_inventory_turnover]
  rw [lookup_cons_self]

theorem wacc_lookup_wacc (e d re rd tr : ℚ) (h : e + d ≠ 0) :
    List.lookup "wacc" (calculate_wacc e d re rd tr) =
      some (.num (pyRound 4 (e / (e + d) * re + d / (e + d) * rd * (1 - tr)))) := by
  simp only [calculate_wacc]
  rw [if_neg h, lookup_cons_self]

theorem wacc_lookup_pct (e d re rd tr : ℚ) (h : e + d ≠ 0) :
    List.lookup "wacc_percentage" (calculate_wacc e d re rd tr) =
      some (.num (pyRound 2 ((e / (e + d) * re + d / (e + d) * rd * (1 - tr)) * 100))) := by
  simp only [calculate_wacc]
  rw [if_neg h, lookup_cons_ne (by decide), lookup_cons_self]

theorem wacc_lookup_error (e d re rd tr : ℚ) (h : e + d ≠ 0) :
    List.lookup "error" (calculate_wacc e d re rd tr) = none := by
  simp only [calculate_wacc]
  rw [if_neg h, lookup_cons_ne (by decide), lookup_cons_ne (by decide),
      lookup_cons_ne (by decide), lookup_cons_ne (by decide), lookup_cons_ne (by decide),
      lookup_cons_ne (by decide), lookup_cons_ne (by decide), lookup_cons_ne (by decide),
      lookup_cons_ne (by decide), lookup_cons_ne (by decide), lookup_cons_ne (by decide),
      lookup_cons_ne (by decide), lookup_cons_ne (by decide), lookup_cons_ne (by decide)]
  rfl

/-! ## Claim theorems -/

/-- C8: for every discount rate, calculate_npv_fixed on the empty cash-flow
list returns the single-key error record, which contains no npv entry. -/
theorem c8_npv_empty_is_error (r : ℚ) :
    calculate_npv_fixed [] r = [("error", PyVal.str "No cash flows provided")] ∧
    List.lookup "npv" (calculate_npv_fixed [] r) = none := by
  exact ⟨rfl, rfl⟩

/-- C10: calculate_profit_loss_ratio reports is_profitable and the Profitable
status exactly when revenue minus cost is positive, independently of the
zero-divisor guard; at revenue 0 and cost -100 the ratio is forced to 0 while
the status is still Profitable. -/
theorem c10_profitable_iff_positive_profit :
    (∀ revenue cost : ℚ,
      (List.lookup "is_profitable" (calculate_profit_loss_ratio_fn revenue cost) =
          some (.boolean true) ∧
        List.lookup "status" (calculate_profit_loss_ratio_fn revenue cost) =
          some (.str "Profitable")) ↔ revenue - cost > 0) ∧
    (List.lookup "profit_loss_ratio" (calculate_profit_loss_ratio_fn 0 (-100)) =
        some (.num 0) ∧
      List.lookup "status" (calculate_profit_loss_ratio_fn 0 (-100)) =
        some (.str "Profitable")) := by
  constructor
  · intro revenue cost
    rw [plr_lookup_is_profitable, plr_lookup_status]
    constructor
    · rintro ⟨h1, -⟩
      simpa using h1
    · intro h
      simp [h]
  · constructor
    · rw [plr_lookup_ratio]
      norm_num [pyRound_zero]
    · rw [plr_lookup_status]
      norm_num

/-- C3 (counterexample): at cogs 100 and average inventory 0 the result is a
full success-shaped record - no error key, and the inventory_turnover key is
present - refuting the claim that the function returns an error-shaped result
for non-positive average inventory. -/
theorem c3_counterexample :
    List.lookup "error" (calculate_inventory_turnover 100 0) = none ∧
    (List.lookup "inventory_turnover" (calculate_inventory_turnover 100 0)).isSome = true := by
  constructor
  · exact invturn_lookup_error 100 0
  · rw [invturn_lookup_turnover]
    rfl

/-- C3 (amended): for every cogs and every non-positive average inventory,
calculate_inventory_turnover returns the forced-zero success record: no error
key, inventory_turnover 0 and days_inventory_outstanding 0. -/
theorem c3_amended (cogs avg : ℚ) (h : avg ≤ 0) :
    List.lookup "error" (calculate_inventory_turnover cogs avg) = none ∧
    List.lookup "inventory_turnover" (calculate_inventory_turnover cogs avg) =
      some (.num 0) ∧
    List.lookup "days_inventory_outstanding" (calculate_inventory_turnover cogs avg) =
      some (.num 0) := by
  have hng : ¬ avg > 0 := not_lt.mpr h
  refine ⟨invturn_lookup_error cogs avg, ?_, ?_⟩
  · rw [invturn_lookup_turnover, if_neg hng, pyRound_zero]
  · simp only [calculate_inventory_turnover, if_neg hng]
    rw [lookup_cons_ne (by decide), lookup_cons_self]
    norm_num [pyRound_zero]

/-- C3 (witness): the amended statement instantiated at cogs 7 and average
inventory -2. -/
theorem c3_witness :
    List.lookup "error" (calculate_inventory_turnover 7 (-2)) = none ∧
    List.lookup "inventory_turnover" (calculate_inventory_turnover 7 (-2)) =
      some (.num 0) ∧
    List.lookup "days_inventory_outstanding" (calculate_inventory_turnover 7 (-2)) =
      some (.num 0) :=
  c3_amended 7 (-2) (by norm_num)

/-- C2 (counterexample): at the claimed input the exact WACC percentage is
9.075, a decimal tie not exactly representable as a binary double: the
program's computed double falls just below it and stores 9.07, the exact
rational rounds to 9.08.  Either way the stored wacc_percentage is within
0.005 of 9.075 and more than 0.05 away from 9.15, refuting the claimed
approximately-9.15 - the only assertion made here, so the statement holds of
the program on both sides of the tie. -/
theorem c2_counterexample :
    ∃ v : ℚ,
      List.lookup "wacc_percentage"
          (calculate_wacc 500000 300000 (12/100) (6/100) (30/100)) =
        some (.num v) ∧
      |v - 363/40| ≤ 1/200 ∧
      ¬ |v - 915/100| ≤ 5/100 := by
  have hv : pyRound 2 ((500000 / (500000 + 300000) * (12/100) +
      300000 / (500000 + 300000) * (6/100) * (1 - 30/100)) * 100) = 227/25 := by
    unfold pyRound pyRoundInt
    norm_num
  refine ⟨227/25, ?_, ?_, ?_⟩
  · rw [wacc_lookup_pct _ _ _ _ _ (by norm_num), hv]
  · rw [abs_le]
    norm_num
  · rw [abs_le]
    norm_num

/-- C2 (amended): calculate_wacc(500000, 300000, 0.12, 0.06, 0.30) computes
the exact WACC 0.09075 (9.075 percent); the stored wacc and wacc_percentage
fields are its 4- and 2-decimal roundings and so lie within 0.00005 of
0.09075 and within 0.005 of 9.075 respectively (the program's binary double
sits just below the decimal tie and stores 0.0907 and 9.07) - approximately
9.07, not 9.15.  Only the tie-insensitive bounds are asserted, since the
exact-rational model cannot see which side of the tie the double falls on. -/
theorem c2_amended :
    ∃ w v : ℚ,
      List.lookup "wacc" (calculate_wacc 500000 300000 (12/100) (6/100) (30/100)) =
        some (.num w) ∧
      List.lookup "wacc_percentage"
          (calculate_wacc 500000 300000 (12/100) (6/100) (30/100)) =
        some (.num v) ∧
      |w - 363/4000| ≤ 1/20000 ∧
      |v - 363/40| ≤ 1/200 := by
  have hw : pyRound 4 (500000 / (500000 + 300000) * (12/100) +
      300000 / (500000 + 300000) * (6/100) * (1 - 30/100)) = 227/2500 := by
    unfold pyRound pyRoundInt
    norm_num
  have hv : pyRound 2 ((500000 / (500000 + 300000) * (12/100) +
      300000 / (500000 + 300000) * (6/100) * (1 - 30/100)) * 100) = 227/25 := by
    unfold pyRound pyRoundInt
    norm_num
  refine ⟨227/2500, 227/25, ?_, ?_, ?_, ?_⟩
  · rw [wacc_lookup_wacc _ _ _ _ _ (by norm_num), hw]
  · rw [wacc_lookup_pct _ _ _ _ _ (by norm_num), hv]
  · rw [abs_le]
    norm_num
  · rw [abs_le]
    norm_num

theorem ebitdaSeg_keys (fd : FinancialData) : ∀ p ∈ ebitdaSeg fd, p.1 = "ebitda" := by
  cases hr : fd.revenue <;> cases hc : fd.cost <;> simp [ebitdaSeg, hr, hc]

theorem lookup_none_of_ne {β : Type} {k : String} {l : List (String × β)}
    (h : ∀ p ∈ l, p.1 ≠ k) : List.lookup k l = none := by
  simpa using @lookup_append_ne β k l [] h

/-- C4 (counterexample): on a financial_data dict with no equity and no
liabilities entry, the Metrics Bundle has no wacc entry at all - refuting the
claim that a missing-aggregate run still carries a wacc error record. -/
theorem c4_counterexample :
    fdEmpty.equity = none ∧ fdEmpty.liabilities = none ∧
    List.lookup "wacc" (calculate_all_metrics fdEmpty) = none := by
  exact ⟨rfl, rfl, rfl⟩

/-- C4 (amended): in calculate_all_metrics, when both the equity and
liabilities aggregates are present: both positive gives a wacc entry holding
the real WACC record (no error key, wacc key present); both negative gives a
wacc entry holding the single-key error record; when either aggregate is
missing the wacc key is absent from the bundle altogether. -/
theorem c4_amended :
    (∀ (fd : FinancialData) (e l : ℚ), fd.equity = some e → fd.liabilities = some l →
      0 < e → 0 < l →
      List.lookup "wacc" (calculate_all_metrics fd) =
          some (calculate_wacc e l (12/100) (6/100) (30/100)) ∧
        List.lookup "error" (calculate_wacc e l (12/100) (6/100) (30/100)) = none ∧
        (List.lookup "wacc" (calculate_wacc e l (12/100) (6/100) (30/100))).isSome = true) ∧
    (∀ (fd : FinancialData) (e l : ℚ), fd.equity = some e → fd.liabilities = some l →
      e < 0 → l < 0 →
      List.lookup "wacc" (calculate_all_metrics fd) =
        some [("error",
          PyVal.str "Need positive Equity and Liabilities/Debt values for WACC calculation")]) ∧
    (∀ fd : FinancialData, fd.equity = none ∨ fd.liabilities = none →
      List.lookup "wacc" (calculate_all_metrics fd) = none) := by
  refine ⟨?_, ?_, ?_⟩
  · intro fd e l he hl he' hl'
    have hne : e + l ≠ 0 := by positivity
    refine ⟨?_, wacc_lookup_error e l _ _ _ hne, ?_⟩
    · rw [lookup_wacc_bundle]
      simp only [waccSeg, he, hl, if_pos (And.intro he' hl')]
      rw [List.singleton_append, lookup_cons_self]
    · rw [wacc_lookup_wacc e l _ _ _ hne]
      rfl
  · intro fd e l he hl he' hl'
    have hng : ¬ (e > 0 ∧ l > 0) := by
      rintro ⟨h1, -⟩
      exact absurd h1 (not_lt.mpr he'.le)
    rw [lookup_wacc_bundle]
    simp only [waccSeg, he, hl, if_neg hng]
    rw [List.singleton_append, lookup_cons_self]
  · intro fd hmiss
    rw [lookup_wacc_bundle]
    have hseg : waccSeg fd = [] := by
      rcases hmiss with he | hl
      · cases hl : fd.liabilities <;> simp [waccSeg, he, hl]
      · cases he : fd.equity <;> simp [waccSeg, he, hl]
    rw [hseg, List.nil_append]
    exact lookup_none_of_ne fun p hp => by simp [ebitdaSeg_keys fd p hp]

/-- C4 (witness): the amended statement instantiated on dicts holding only
equity 500000 and liabilities 300000 (positive case), equity -500000 and
liabilities -300000 (negative case), and the empty dict (missing case). -/
theorem c4_witness :
    (List.lookup "wacc" (calculate_all_metrics fdPos) =
        some (calculate_wacc 500000 300000 (12/100) (6/100) (30/100)) ∧
      List.lookup "error" (calculate_wacc 500000 300000 (12/100) (6/100) (30/100)) = none ∧
      (List.lookup "wacc" (calculate_wacc 500000 300000 (12/100) (6/100) (30/100))).isSome
        = true) ∧
    List.lookup "wacc" (calculate_all_metrics fdNeg) =
      some [("error",
        PyVal.str "Need positive Equity and Liabilities/Debt values for WACC calculation")] ∧
    List.lookup "wacc" (calculate_all_metrics fdEmpty) = none :=
  ⟨c4_amended.1 fdPos 500000 300000 rfl rfl (by norm_num) (by norm_num),
   c4_amended.2.1 fdNeg (-500000) (-300000) rfl rfl (by norm_num) (by norm_num),
   c4_amended.2.2 fdEmpty (Or.inl rfl)⟩

/-- When the cashflow role is detected, the cashflows entry is the coerced
cells of that column, whatever the other roles are. -/
theorem extract_cashflows_of_detected (t : Table) (rm : RoleMap) (c : String)
    (h : rm.cashflow = some c) :
    (extract_financial_data t rm).cashflows = some (coerceSeries (getCol t c)) := by
  simp only [extract_financial_data, h]

/-- C9: whenever the Role Map contains a cashflow role, extract_financial_data
takes the cashflows series from that column's coerced cells - never the
revenue-minus-cost synthesis - and when that column has no numeric cell the
series is empty and the bundle's npv entry is the error record. -/
theorem c9_explicit_cashflow_priority (t : Table) (rm : RoleMap) (c : String)
    (h : rm.cashflow = some c) :
    (extract_financial_data t rm).cashflows = some (coerceSeries (getCol t c)) ∧
    (coerceSeries (getCol t c) = [] →
      List.lookup "npv" (calculate_all_metrics (extract_financial_data t rm)) =
        some [("error", PyVal.str "No cash flows provided")]) := by
  refine ⟨extract_cashflows_of_detected t rm c h, fun hempty => ?_⟩
  have hcf : (extract_financial_data t rm).cashflows = some [] := by
    rw [extract_cashflows_of_detected t rm c h, hempty]
  rw [lookup_npv_bundle]
  simp only [npvIrrSeg, hcf]
  rw [List.cons_append, lookup_cons_self]
  rfl

/-- C9 (witness): a table whose only column is a text-valued cash column,
detected as the cashflow role: the series is empty and the npv entry errors. -/
theorem c9_witness :
    (extract_financial_data tblTextCash rmTextCash).cashflows = some [] ∧
    List.lookup "npv" (calculate_all_metrics (extract_financial_data tblTextCash rmTextCash)) =
      some [("error", PyVal.str "No cash flows provided")] := by
  have h := c9_explicit_cashflow_priority tblTextCash rmTextCash "Cash" rfl
  exact ⟨h.1.trans rfl, h.2 rfl⟩

/-- C6: with no cashflow role and both revenue and cost roles detected, the
synthesized cashflows series is the pointwise difference over the common
prefix: its length is the minimum of the two series lengths and each entry is
the corresponding revenue-minus-cost difference (the modelled coercion never
fails, so the error-tag proviso of the claim is vacuously met). -/
theorem c6_truncated_synthesis (t : Table) (rm : RoleMap) (rc cc : String)
    (hcf : rm.cashflow = none) (hr : rm.revenue = some rc) (hc : rm.cost = some cc) :
    (extract_financial_data t rm).cashflows =
        some (List.zipWith (fun a b => a - b)
          (coerceSeries (getCol t rc)) (coerceSeries (getCol t cc))) ∧
    (List.zipWith (fun a b => a - b) (coerceSeries (getCol t rc))
          (coerceSeries (getCol t cc))).length =
      min (coerceSeries (getCol t rc)).length (coerceSeries (getCol t cc)).length ∧
    ∀ i : ℕ, i < (coerceSeries (getCol t rc)).length →
      i < (coerceSeries (getCol t cc)).length →
      (List.zipWith (fun a b => a - b) (coerceSeries (getCol t rc))
          (coerceSeries (getCol t cc))).getD i 0 =
        (coerceSeries (getCol t rc)).getD i 0 - (coerceSeries (getCol t cc)).getD i 0 := by
  refine ⟨?_, List.length_zipWith _ _ _, fun i h1 h2 => zipWith_sub_getD _ _ i h1 h2⟩
  simp only [extract_financial_data, mkAggregate, hcf, hr, hc, Option.map_some']

/-- C6 (witness): revenue column [10, 20, 30] and cost column [5, 50]: the
synthesized series is [5, -30], of length two, with entry 1 equal to 20 - 50. -/
theorem c6_witness :
    (extract_financial_data tblSalesExpense rmSalesExpense).cashflows = some [5, -30] ∧
    (List.zipWith (fun a b => a - b) (coerceSeries (getCol tblSalesExpense "Sales"))
        (coerceSeries (getCol tblSalesExpense "Expense"))).length = 2 ∧
    (List.zipWith (fun a b => a - b) (coerceSeries (getCol tblSalesExpense "Sales"))
        (coerceSeries (getCol tblSalesExpense "Expense"))).getD 1 0 = 20 - 50 := by
  have h := c6_truncated_synthesis tblSalesExpense rmSalesExpense "Sales" "Expense" rfl rfl rfl
  refine ⟨?_, ?_, ?_⟩
  · rw [h.1]
    have hs : coerceSeries (getCol tblSalesExpense "Sales") = [10, 20, 30] := rfl
    have he : coerceSeries (getCol tblSalesExpense "Expense") = [5, 50] := rfl
    rw [hs, he]
    norm_num
  · rfl
  · refine (h.2.2 1 (by decide) (by decide)).trans ?_
    have h1 : (coerceSeries (getCol tblSalesExpense "Sales")).getD 1 0 = 20 := rfl
    have h2 : (coerceSeries (getCol tblSalesExpense "Expense")).getD 1 0 = 50 := rfl
    rw [h1, h2]

/-- C5: the Column Classifier is idempotent: re-running detection with the
detected-columns map already populated from a first run over the same column
names leaves the Role Map unchanged (determinism and the at-most-one-column-
per-role shape are built into detect_columns being a function into RoleMap,
whose fields hold at most one column name each). -/
theorem c5_detect_columns_idempotent (names : List String) :
    detect_columns names (detect_columns names emptyRoleMap) =
      detect_columns names emptyRoleMap := by
  simp only [detect_columns, emptyRoleMap, detectRoleLoop_idem]

/-- C1 (counterexample): for the table with columns Revenue and Cost the
Business-Type Classifier answers service_based, not income_statement: the
service rule {customer, revenue, date} fires first because its intersection
with the detected roles {revenue, cost} is non-empty. -/
theorem c1_counterexample :
    detect_business_type (detect_columns ["Revenue", "Cost"] emptyRoleMap) = "service_based" ∧
    detect_business_type (detect_columns ["Revenue", "Cost"] emptyRoleMap) ≠
      "income_statement" := by
  exact ⟨rfl, by decide⟩

/-- C1 (amended): for the table Revenue=[500000], Cost=[350000] the Column
Classifier assigns the revenue and cost roles, the Business-Type Classifier
returns service_based, and the Metrics Bundle contains a profit_loss entry
with profit 150000, profit_loss_ratio 0.3 and status Profitable. -/
theorem c1_amended :
    (detect_columns ["Revenue", "Cost"] emptyRoleMap).revenue = some "Revenue" ∧
    (detect_columns ["Revenue", "Cost"] emptyRoleMap).cost = some "Cost" ∧
    detect_business_type (detect_columns ["Revenue", "Cost"] emptyRoleMap) = "service_based" ∧
    List.lookup "profit_loss"
        (calculate_all_metrics
          (extract_financial_data tblRevCost (detect_columns ["Revenue", "Cost"] emptyRoleMap))) =
      some (calculate_profit_loss_ratio_fn 500000 350000) ∧
    List.lookup "profit" (calculate_profit_loss_ratio_fn 500000 350000) =
      some (.num 150000) ∧
    List.lookup "profit_loss_ratio" (calculate_profit_loss_ratio_fn 500000 350000) =
      some (.num (3/10)) ∧
    List.lookup "status" (calculate_profit_loss_ratio_fn 500000 350000) =
      some (.str "Profitable") := by
  have hser_r : coerceSeries (getCol tblRevCost "Revenue") = [500000] := rfl
  have hser_c : coerceSeries (getCol tblRevCost "Cost") = [350000] := rfl
  have htot_r : (mkAggregate (getCol tblRevCost "Revenue")).total = 500000 := by
    simp only [mkAggregate]
    rw [hser_r]
    norm_num
  have htot_c : (mkAggregate (getCol tblRevCost "Cost")).total = 350000 := by
    simp only [mkAggregate]
    rw [hser_c]
    norm_num
  set fd := extract_financial_data tblRevCost (detect_columns ["Revenue", "Cost"] emptyRoleMap)
    with hfd
  have hrev : fd.revenue = some (mkAggregate (getCol tblRevCost "Revenue")) := rfl
  have hcost : fd.cost = some (mkAggregate (getCol tblRevCost "Cost")) := rfl
  have hseg : profitLossSeg fd = [("profit_loss", calculate_profit_loss_ratio_fn 500000 350000)] := by
    simp only [profitLossSeg, hrev, hcost, htot_r, htot_c]
  refine ⟨rfl, rfl, rfl, ?_, ?_, ?_, ?_⟩
  · unfold calculate_all_metrics
    rw [hseg, List.cons_append, lookup_cons_self]
  · rw [plr_lookup_profit]
    congr 2
    unfold pyRound pyRoundInt
    norm_num
  · rw [plr_lookup_ratio]
    congr 2
    unfold pyRound pyRoundInt
    norm_num
  · rw [plr_lookup_status]
    norm_num

theorem npv_lookup_npv (cf : List ℚ) (r : ℚ) (h : cf ≠ []) :
    List.lookup "npv" (calculate_npv_fixed cf r) =
      some (.num (pyRound 4 (npvLoop r 0 cf))) := by
  obtain ⟨a, t, rfl⟩ : ∃ a t, cf = a :: t := by
    cases cf with
    | nil => exact absurd rfl h
    | cons a t => exact ⟨a, t, rfl⟩
  simp only [calculate_npv_fixed, List.isEmpty_cons, Bool.false_eq_true, if_false]
  rw [lookup_cons_self]

theorem npv_lookup_pv (cf : List ℚ) (r : ℚ) (h : cf ≠ []) :
    List.lookup "present_values" (calculate_npv_fixed cf r) =
      some (.numList ((pvListLoop r 0 cf).map (pyRound 4))) := by
  obtain ⟨a, t, rfl⟩ : ∃ a t, cf = a :: t := by
    cases cf with
    | nil => exact absurd rfl h
    | cons a t => exact ⟨a, t, rfl⟩
  simp only [calculate_npv_fixed, List.isEmpty_cons, Bool.false_eq_true, if_false]
  rw [lookup_cons_ne (by decide), lookup_cons_ne (by decide), lookup_cons_ne (by decide),
      lookup_cons_ne (by decide), lookup_cons_self]

/-- C7 (counterexample): at cash flows [0.00004, 0.00004, 0.00004] and rate 0,
the stored npv is 0.0001 (the 4-decimal rounding of the exact summation
0.00012), so the npv field does not equal the literal summation; and the
returned present_values all round to 0, so their sum differs from the
returned npv by 0.0001, far beyond the 1e-6 tolerance. -/
theorem c7_counterexample :
    List.lookup "npv" (calculate_npv_fixed [1/25000, 1/25000, 1/25000] 0) =
      some (.num (1/10000)) ∧
    npvSummation [1/25000, 1/25000, 1/25000] 0 = 3/25000 ∧
    (1/10000 : ℚ) ≠ 3/25000 ∧
    List.lookup "present_values" (calculate_npv_fixed [1/25000, 1/25000, 1/25000] 0) =
      some (.numList [0, 0, 0]) ∧
    ¬ |([(0 : ℚ), 0, 0]).sum - 1/10000| ≤ 1/1000000 := by
  refine ⟨?_, ?_, by norm_num, ?_, ?_⟩
  · rw [npv_lookup_npv _ _ (List.cons_ne_nil _ _)]
    congr 2
    simp only [npvLoop]
    unfold pyRound pyRoundInt
    norm_num
  · unfold npvSummation
    have h0 : ([(1:ℚ)/25000, 1/25000, 1/25000]).getD 0 0 = 1/25000 := rfl
    have h1 : ([(1:ℚ)/25000, 1/25000, 1/25000]).getD 1 0 = 1/25000 := rfl
    have h2 : ([(1:ℚ)/25000, 1/25000, 1/25000]).getD 2 0 = 1/25000 := rfl
    rw [show ([(1:ℚ)/25000, 1/25000, 1/25000]).length = 3 from rfl,
        Finset.sum_range_succ, Finset.sum_range_succ, Finset.sum_range_succ,
        Finset.sum_range_zero, h0, h1, h2]
    norm_num
  · rw [npv_lookup_pv _ _ (List.cons_ne_nil _ _)]
    congr 2
    simp only [pvListLoop, List.map]
    unfold pyRound pyRoundInt
    norm_num
  · have hsum : ([(0 : ℚ), 0, 0]).sum = 0 := by norm_num
    rw [hsum, zero_sub, abs_neg, abs_of_pos (show (0:ℚ) < 1/10000 by norm_num)]
    norm_num

/-- C7 (amended): for every non-empty cash-flow list and rate above -1, the
npv field is the literal summation rounded half-even to 4 decimals, the
present_values field holds the per-period terms each rounded to 4 decimals,
and before that final rounding the per-period present values sum exactly to
the literal summation. -/
theorem c7_amended (cf : List ℚ) (r : ℚ) (h : cf ≠ []) (_hr : r > -1) :
    List.lookup "npv" (calculate_npv_fixed cf r) =
      some (.num (pyRound 4 (npvSummation cf r))) ∧
    List.lookup "present_values" (calculate_npv_fixed cf r) =
      some (.numList ((pvListLoop r 0 cf).map (pyRound 4))) ∧
    (pvListLoop r 0 cf).sum = npvSummation cf r := by
  refine ⟨?_, npv_lookup_pv cf r h, ?_⟩
  · rw [npv_lookup_npv cf r h, npvLoop_zero_eq_npvSummation]
  · rw [pvListLoop_sum, npvLoop_zero_eq_npvSummation]

/-- C7 (witness): the amended statement instantiated at cash flows [100, 200]
and discount rate 0.1. -/
theorem c7_witness :
    List.lookup "npv" (calculate_npv_fixed [100, 200] (1/10)) =
      some (.num (pyRound 4 (npvSummation [100, 200] (1/10)))) ∧
    List.lookup "present_values" (calculate_npv_fixed [100, 200] (1/10)) =
      some (.numList ((pvListLoop (1/10) 0 [100, 200]).map (pyRound 4))) ∧
    (pvListLoop (1/10) 0 [100, 200]).sum = npvSummation [100, 200] (1/10) :=
  c7_amended [100, 200] (1/10) (List.cons_ne_nil _ _) (by norm_num)
